import Mathlib

/- Shallow embedding of the mcp-youtube server (src/mcp_youtube/tools.py and
   src/mcp_youtube/server.py).  Python strings are Lean strings; `str.split`,
   substring tests and the relevant parts of `urllib.parse` are modelled
   character by character. -/

/-- Python `s.split(sep)` for a single-character separator: splits at every
occurrence, keeping empty fragments, and `"".split(sep) == [""]`. -/
def pySplitChar (sep : Char) : List Char → List (List Char)
  | [] => [[]]
  | c :: rest =>
    if c == sep then [] :: pySplitChar sep rest
    else
      match pySplitChar sep rest with
      | h :: t => (c :: h) :: t
      | [] => [[c]]

/-- Python `pat in s`: substring containment. -/
def pyIn (pat s : String) : Bool := decide (pat.data <:+: s.data)

/-- Python `s.split(c, 1)` restricted to the first occurrence: the parts before
and after the first occurrence of `c`, or `none` when `c` does not occur. -/
def splitFirst (l : List Char) (c : Char) : Option (List Char × List Char) :=
  match l.findIdx? (· == c) with
  | some i => some (l.take i, l.drop (i + 1))
  | none => none

/-- Value of a hexadecimal digit, `none` for non-hex characters. -/
def hexVal? (c : Char) : Option Nat :=
  if '0' ≤ c ∧ c ≤ '9' then some (c.toNat - '0'.toNat)
  else if 'a' ≤ c ∧ c ≤ 'f' then some (c.toNat - 'a'.toNat + 10)
  else if 'A' ≤ c ∧ c ≤ 'F' then some (c.toNat - 'A'.toNat + 10)
  else none

/-- Percent-decoding step of `urllib.parse.unquote`: a `%` followed by two hex
digits becomes the character with that code (exact for ASCII escapes; for
multi-byte UTF-8 escapes, which no claim exercises, bytes are approximated by
code points); a `%` not followed by two hex digits is kept literally. -/
def percentDecode : List Char → List Char
  | [] => []
  | '%' :: a :: b :: rest =>
    match hexVal? a, hexVal? b with
    | some x, some y => Char.ofNat (16 * x + y) :: percentDecode rest
    | _, _ => '%' :: percentDecode (a :: b :: rest)
  | c :: rest => c :: percentDecode rest

/-- `urllib.parse.unquote_plus` as used by `parse_qsl`: `+` becomes a space,
then percent-escapes are decoded. -/
def pyUnquotePlus (s : String) : String :=
  ⟨percentDecode (s.data.map fun c => if c == '+' then ' ' else c)⟩

/-- `urllib.parse.parse_qsl(qs)` with default arguments: split on `&`, skip
empty fragments, skip fragments without `=` and fragments with an empty value
(keep_blank_values is False), and unquote names and values. -/
def parse_qsl (qs : String) : List (String × String) :=
  (pySplitChar '&' qs.data).filterMap fun nv =>
    if nv = [] then none
    else
      match splitFirst nv '=' with
      | none => none
      | some (n, v) =>
        if v = [] then none
        else some (pyUnquotePlus ⟨n⟩, pyUnquotePlus ⟨v⟩)

/-- Characters allowed in a URL scheme. -/
def schemeChar (c : Char) : Bool := c.isAlpha || c.isDigit || c == '+' || c == '-' || c == '.'

/-- Result of `urllib.parse.urlsplit`. -/
structure SplitResult where
  scheme : String
  netloc : String
  path : String
  query : String
  fragment : String
  deriving DecidableEq, Repr

/-- Scheme-extraction step of `urllib.parse.urlsplit`: when the text before the
first `:` is nonempty, starts with an ASCII letter and consists of scheme
characters, it is the (lowercased) scheme and the rest follows the colon. -/
def splitScheme (l : List Char) : String × List Char :=
  match l.findIdx? (· == ':') with
  | some i =>
    if 0 < i then
      let before := l.take i
      if (before.headD ' ').isAlpha && before.all schemeChar then
        (⟨before.map Char.toLower⟩, l.drop (i + 1))
      else ("", l)
    else ("", l)
  | none => ("", l)

/-- The `_splitnetloc` helper of `urllib.parse`: the netloc extends to the
first `/`, `?` or `#`. -/
def splitNetloc (l : List Char) : List Char × List Char :=
  match l.findIdx? (fun c => c == '/' || c == '?' || c == '#') with
  | some i => (l.take i, l.drop i)
  | none => (l, [])

/-- `urllib.parse.urlsplit` restricted to the fields `_parse_youtube_url`
consults (netloc and query): tab, CR and LF bytes are removed, the scheme is
split off, a leading `//` introduces the netloc, the fragment is split at the
first `#` of the remainder, then the query at the first `?`.  The result is
`none` for the `ValueError` raised on a netloc with unbalanced square brackets
(the bracketed-host and NFKC netloc checks, which reject only exotic hosts,
are not modelled). -/
def pyUrlsplit (url : String) : Option SplitResult :=
  let u0 := url.data.filter fun c => !(c == '\t' || c == '\r' || c == '\n')
  let su := splitScheme u0
  let nu :=
    if su.2.take 2 = ['/', '/'] then splitNetloc (su.2.drop 2)
    else ([], su.2)
  if (nu.1.contains '[' && !nu.1.contains ']')
      || (nu.1.contains ']' && !nu.1.contains '[') then
    none
  else
    let uf :=
      match splitFirst nu.2 '#' with
      | some ab => ab
      | none => (nu.2, [])
    let pq :=
      match splitFirst uf.1 '?' with
      | some ab => ab
      | none => (uf.1, [])
    some ⟨su.1, ⟨nu.1⟩, ⟨pq.1⟩, ⟨pq.2⟩, ⟨uf.2⟩⟩

/-- The youtu.be branch of `_parse_youtube_url`:
`url.split("/")[-1].split("?")[0]`. -/
def shortLinkId (url : String) : String :=
  ⟨(pySplitChar '?' ((pySplitChar '/' url.data).getLastD [])).headD []⟩

/-- `_parse_youtube_url` from tools.py: a URL containing `"youtu.be"` yields
the final `/`-segment truncated before the first `?`; otherwise a URL whose
netloc contains `"youtube.com"` yields the first nonempty `v` query parameter;
an exception inside the try block (modelled by `pyUrlsplit` returning `none`)
and every other case fall through to `none`. -/
def parse_youtube_url (url : String) : Option String :=
  if pyIn "youtu.be" url then some (shortLinkId url)
  else
    match pyUrlsplit url with
    | some r =>
      if pyIn "youtube.com" r.netloc then
        match (parse_qsl r.query).find? (fun p => p.1 == "v") with
        | some p => some p.2
        | none => none
      else none
    | none => none

/-- One caption record as returned by the transcript API and stored in the
cache file; only the `text` field is read downstream (`line["text"]`), so the
unused timing fields are not modelled. -/
structure Caption where
  text : String
  deriving DecidableEq, Repr

/-- Result of `YouTubeTranscriptApi.get_transcript`: a Python list of caption
records, or a value that is not a list (`not isinstance(transcript, list)`). -/
inductive FetchResult where
  | captions (cs : List Caption)
  | notAList
  deriving DecidableEq, Repr

/-- An `mcp.types.TextContent` item (`type="text"` plus the text). -/
structure TextContent where
  type : String
  text : String
  deriving DecidableEq, Repr

/-- Observable state touched by `download_closed_captions`: whether the
transcripts cache directory exists, the cache files (video id ↦ stored
transcript; `json.dumps`/`json.loads` round-trips these records, so a file is
modelled by the list it stores), and the number of external fetch calls made
so far. -/
structure CacheWorld where
  dirExists : Bool
  entries : List (String × List Caption)
  fetchCalls : Nat
  deriving DecidableEq, Repr

/-- Errors raised by `download_closed_captions` itself. -/
inductive HandlerError where
  | unrecognizedURL (url : String)
  | noTranscript
  deriving DecidableEq, Repr

/-- `" ".join([line["text"] for line in transcript])`. -/
def joinCaptions (cs : List Caption) : String :=
  String.intercalate " " (cs.map Caption.text)

/-- `download_closed_captions` from tools.py as a state transformer over
`CacheWorld`.  The external fetch is the parameter `fetch`; the handler is
otherwise translated step by step: create the cache directory, parse the URL
(`if not video_id` also rejects the empty string), on a cache miss fetch and
reject an empty or non-list result before writing, on a hit read the cached
records, and return the space-joined caption texts as one text item. -/
def download_closed_captions (fetch : String → FetchResult) (video_url : String)
    (w0 : CacheWorld) : Except HandlerError (List TextContent) × CacheWorld :=
  let w := { w0 with dirExists := true }
  match parse_youtube_url video_url with
  | none => (.error (.unrecognizedURL video_url), w)
  | some vid =>
    if vid = "" then (.error (.unrecognizedURL video_url), w)
    else
      match w.entries.lookup vid with
      | none =>
        let w1 := { w with fetchCalls := w.fetchCalls + 1 }
        match fetch vid with
        | .notAList => (.error .noTranscript, w1)
        | .captions [] => (.error .noTranscript, w1)
        | .captions cs =>
          (.ok [⟨"text", joinCaptions cs⟩], { w1 with entries := (vid, cs) :: w1.entries })
      | some cs => (.ok [⟨"text", joinCaptions cs⟩], w)

/-- A Python value as it can appear among raw keyword arguments. -/
inductive PyValue where
  | str (s : String)
  | int (n : Int)
  | bool (b : Bool)
  | pyNone
  deriving DecidableEq, Repr

/-- Python exceptions that cross the modelled boundaries, each carrying its
message (`str(e)`). -/
inductive PyExc where
  | typeError (s : String)
  | valueError (s : String)
  | validationError (s : String)
  | keyError (s : String)
  | runtimeError (s : String)
  deriving DecidableEq, Repr

/-- The message `str(e)` of an exception. -/
def PyExc.msg : PyExc → String
  | .typeError s => s
  | .valueError s => s
  | .validationError s => s
  | .keyError s => s
  | .runtimeError s => s

/-- The validated argument object of the one tool: `class
DownloadClosedCaptions(ToolArgs)` with field `video_url: str`. -/
structure DownloadClosedCaptions where
  video_url : String
  deriving DecidableEq, Repr

/-- Pydantic construction `DownloadClosedCaptions(**entries)` with the class's
default `model_config = ConfigDict()`: the required field must be present and
a string (v2 lax mode does not coerce non-strings to `str`), and unknown extra
fields are ignored (the pydantic default `extra` behaviour). -/
def bindDownloadClosedCaptions (entries : List (String × PyValue)) :
    Except PyExc DownloadClosedCaptions :=
  match entries.lookup "video_url" with
  | none => .error (.validationError "Field required: video_url")
  | some (.str s) => .ok ⟨s⟩
  | some _ => .error (.validationError "Input should be a valid string: video_url")

/-- An `mcp.types.Tool` description: name, description, and the JSON schema of
the input, modelled structurally as (field name, type, required) triples. -/
structure Tool where
  name : String
  description : String
  inputSchema : List (String × String × Bool)
  deriving DecidableEq, Repr

/-- A class of the tools module as seen by `inspect.getmembers(tools,
inspect.isclass)`: its `__name__`, its `__doc__`, whether it is a subclass of
`ToolArgs`, and its declared pydantic fields. -/
structure ToolClass where
  name : String
  doc : String
  subclassOfToolArgs : Bool
  fields : List (String × String × Bool)
  deriving DecidableEq, Repr

/-- The classes in the namespace of tools.py (its own classes and the imported
ones), in the alphabetical order `inspect.getmembers` returns. -/
def toolsModuleClasses : List ToolClass :=
  [ ⟨"BaseModel", "", false, []⟩,
    ⟨"ConfigDict", "", false, []⟩,
    ⟨"DownloadClosedCaptions", "Download closed captions from YouTube video.", true,
      [("video_url", "string", true)]⟩,
    ⟨"EmbeddedResource", "", false, []⟩,
    ⟨"ImageContent", "", false, []⟩,
    ⟨"ServerSession", "", false, []⟩,
    ⟨"TextContent", "", false, []⟩,
    ⟨"Tool", "", false, []⟩,
    ⟨"ToolArgs", "", true, []⟩,
    ⟨"YouTubeTranscriptApi", "", false, []⟩ ]

/-- `tool_description` from tools.py: `Tool(name=args.__name__,
description=args.__doc__, inputSchema=args.model_json_schema())`. -/
def tool_description (args : ToolClass) : Tool :=
  ⟨args.name, args.doc, args.fields⟩

/-- The pairs the generator body of `enumerate_available_tools` yields on one
full consumption: one `(description.name, description)` pair for every class
of the module that is a subclass of `ToolArgs` other than `ToolArgs` itself. -/
def enumerateYield : List (String × Tool) :=
  (toolsModuleClasses.filter fun c => c.subclassOfToolArgs && c.name != "ToolArgs").map
    fun c => (c.name, tool_description c)

/-- State of the one generator object that `functools.cache` memoizes for
`enumerate_available_tools`: whether it has already been consumed. -/
structure EnumState where
  consumed : Bool
  deriving DecidableEq, Repr

/-- Calling `enumerate_available_tools()` and consuming what it returns.
`@cache` memoizes the generator OBJECT returned by the first call, so the
first consumption yields all pairs and exhausts it, and every later call
returns the same exhausted generator, which yields nothing. -/
def consumeEnumerateAvailableTools (s : EnumState) : List (String × Tool) × EnumState :=
  if s.consumed then ([], s) else (enumerateYield, ⟨true⟩)

/-- `mapping: dict[str, Tool] = dict(enumerate_available_tools())`, built once
at module load from the first (and in the program only) consumption. -/
def mapping : List (String × Tool) :=
  (consumeEnumerateAvailableTools ⟨false⟩).1

/-- Raw `arguments` of a tool call: a string-keyed dictionary or not a
dictionary at all. -/
inductive RawArguments where
  | dict (entries : List (String × PyValue))
  | notADict
  deriving Repr

/-- `tool_args` from tools.py: look the class up by `tool.name` in the module
dictionary and construct it with the raw keyword arguments; only
`DownloadClosedCaptions` exists there. -/
def tool_args (tool : Tool) (entries : List (String × PyValue)) :
    Except PyExc DownloadClosedCaptions :=
  if tool.name = "DownloadClosedCaptions" then bindDownloadClosedCaptions entries
  else .error (.keyError tool.name)

/-- `call_tool` from server.py.  The handler invocation is abstracted as
`runner` (in the source it is `await tools.tool_runner(session, args)`, whose
outcome depends on external state); everything else is translated step by
step: non-dict arguments raise a `TypeError` and an unknown name a
`ValueError`, both before the try block, and inside the try block any
exception `e` from binding or from the runner is re-raised as
`RuntimeError(f"Caught Exception. Error: \x7be\x7d")`.  Logging is not
modelled. -/
def call_tool (name : String) (arguments : RawArguments)
    (runner : DownloadClosedCaptions → Except PyExc (List TextContent)) :
    Except PyExc (List TextContent) :=
  match arguments with
  | .notADict => .error (.typeError "arguments must be dictionary")
  | .dict entries =>
    match mapping.lookup name with
    | none => .error (.valueError ("Unknown tool: " ++ name))
    | some tool =>
      match tool_args tool entries with
      | .error e => .error (.runtimeError ("Caught Exception. Error: " ++ e.msg))
      | .ok args =>
        match runner args with
        | .error e => .error (.runtimeError ("Caught Exception. Error: " ++ e.msg))
        | .ok res => .ok res

/-- A prompt message (`role` plus text content). -/
structure PromptMessage where
  role : String
  content : TextContent
  deriving DecidableEq, Repr

/-- `mcp.types.GetPromptResult`: the rendered messages. -/
structure GetPromptResult where
  messages : List PromptMessage
  deriving DecidableEq, Repr

/-- The f-string rendered by `get_prompt` for the known prompt name. -/
def summaryText (url : String) : String :=
  "Create a summary of the video " ++ url ++
    " using closed captions. Define key takeaways, interesting facts, and the main topic of the video."

/-- `get_prompt` from server.py: for name `"YoutubeVideoSummary"` read
`yt_url` from the (optional) argument mapping; `if not url` rejects both a
missing and an empty value with `ValueError("yt_url is required")`; otherwise
render the single user message; any other name raises
`ValueError(f"Unknown prompt: \x7bname\x7d")`. -/
def get_prompt (name : String) (args : Option (List (String × String))) :
    Except PyExc GetPromptResult :=
  if name = "YoutubeVideoSummary" then
    match (match args with | some m => m.lookup "yt_url" | none => none) with
    | some url =>
      if url = "" then .error (.valueError "yt_url is required")
      else .ok ⟨[⟨"user", ⟨"text", summaryText url⟩⟩]⟩
    | none => .error (.valueError "yt_url is required")
  else .error (.valueError ("Unknown prompt: " ++ name))


/-- Unfolding lemma for the substring test. -/
theorem pyIn_iff (pat s : String) : pyIn pat s = true ↔ pat.data <:+: s.data := by
  simp [pyIn]

/-- A string contains any middle factor of an append. -/
theorem pyIn_append_middle (a b c : String) : pyIn b (a ++ b ++ c) = true := by
  rw [pyIn_iff]
  exact ⟨a.data, c.data, by simp⟩

/-- A string contains its appended suffix. -/
theorem pyIn_append_left (a b : String) : pyIn b (a ++ b) = true := by
  rw [pyIn_iff]
  exact ⟨a.data, [], by simp⟩

/-- The condition of the youtube.com branch of `_parse_youtube_url`: the URL
urlsplits without error to a netloc containing `"youtube.com"` and its query
string has a nonempty `v` parameter. -/
def recognizedCanonical (url : String) : Bool :=
  match pyUrlsplit url with
  | some r => pyIn "youtube.com" r.netloc && ((parse_qsl r.query).find? (fun p => p.1 == "v")).isSome
  | none => false

/-- C2 (amended): the three positive parsing examples and the negative example
hold; universally, the parser returns `none` for every URL that neither
contains `"youtu.be"` as a substring nor satisfies the youtube.com branch
condition (netloc containing `"youtube.com"` with a nonempty `v` query
parameter). -/
theorem parse_youtube_url_spec (url : String)
    (h1 : pyIn "youtu.be" url = false) (h2 : recognizedCanonical url = false) :
    parse_youtube_url url = none
    ∧ parse_youtube_url "https://www.youtube.com/watch?v=dQw4w9WgXcQ" = some "dQw4w9WgXcQ"
    ∧ parse_youtube_url "https://youtu.be/dQw4w9WgXcQ" = some "dQw4w9WgXcQ"
    ∧ parse_youtube_url "https://www.youtube.com/watch?v=dQw4w9WgXcQ&t=123" = some "dQw4w9WgXcQ"
    ∧ parse_youtube_url "https://example.com/video" = none := by
  refine ⟨?_, by decide, by decide, by decide, by decide⟩
  unfold parse_youtube_url
  rw [h1]
  simp only [Bool.false_eq_true, if_false]
  unfold recognizedCanonical at h2
  cases hs : pyUrlsplit url with
  | none => rfl
  | some r =>
    rw [hs] at h2
    simp only [Bool.and_eq_false_iff] at h2
    rcases h2 with h2 | h2
    · simp [h2]
    · cases hf : (parse_qsl r.query).find? (fun p => p.1 == "v") with
      | none => simp [hf]
      | some p => rw [hf] at h2; simp at h2

/-- C2 counterexample (strict reading): the URL
`https://example.com/youtu.be/abc` has host `example.com` and an empty query —
it is neither a genuine youtu.be short-link nor a youtube.com URL with a `v`
parameter — yet the parser returns the identifier `"abc"`, not `none`,
because the youtu.be branch is selected by substring containment. -/
theorem parse_youtube_url_foreign_host :
    (pyUrlsplit "https://example.com/youtu.be/abc").map SplitResult.netloc = some "example.com"
    ∧ (pyUrlsplit "https://example.com/youtu.be/abc").map SplitResult.query = some ""
    ∧ parse_youtube_url "https://example.com/youtu.be/abc" = some "abc"
    ∧ parse_youtube_url "https://example.com/youtu.be/abc" ≠ none := by decide

/-- C9: every URL containing `"youtu.be"` anywhere takes the short-link
branch, whose result is the final `/`-segment truncated before the first `?`
(so this branch has precedence over the youtube.com branch); in particular
`https://example.com/youtu.be/abc` parses to `"abc"`, and
`https://youtu.be/` parses to the empty string, which the handler then
rejects as an unrecognized URL. -/
theorem short_link_by_containment (url : String) (h : pyIn "youtu.be" url = true) :
    parse_youtube_url url = some (shortLinkId url)
    ∧ parse_youtube_url "https://example.com/youtu.be/abc" = some "abc"
    ∧ parse_youtube_url "https://youtu.be/" = some ""
    ∧ ∀ (fetch : String → FetchResult) (w : CacheWorld),
        (download_closed_captions fetch "https://youtu.be/" w).1
          = .error (.unrecognizedURL "https://youtu.be/") := by
  refine ⟨?_, by decide, by decide, ?_⟩
  · unfold parse_youtube_url
    rw [h]
    simp
  · intro fetch w
    have hp : parse_youtube_url "https://youtu.be/" = some "" := by decide
    simp [download_closed_captions, hp]

/-- Witness for C9 at a concrete short-link URL. -/
theorem short_link_by_containment_witness :
    parse_youtube_url "https://youtu.be/dQw4w9WgXcQ" = some (shortLinkId "https://youtu.be/dQw4w9WgXcQ") :=
  (short_link_by_containment "https://youtu.be/dQw4w9WgXcQ" (by decide)).1

/-- Witness for C2 (amended) at a concrete unrelated URL. -/
theorem parse_youtube_url_spec_witness :
    parse_youtube_url "ftp://files.example.org/a?v=1" = none :=
  (parse_youtube_url_spec "ftp://files.example.org/a?v=1" (by decide) (by decide)).1

/-- A concrete external fetch used by witnesses: every video id yields the
same fixed two-line transcript. -/
def fixedFetch : String → FetchResult := fun _ => .captions [⟨"hello"⟩, ⟨"world"⟩]

/-- A concrete initial state: no cache directory, no cache files, no fetch
calls made. -/
def emptyWorld : CacheWorld := ⟨false, [], 0⟩

/-- C1: starting from a cache state with no entry for the parsed video id and
an external fetch returning a fixed non-empty caption list, running the
transcript handler twice with the same URL makes exactly one fetch call in
total, the first run returns the joined caption text and writes the cache
entry, and the second run returns a result identical to the first. -/
theorem cache_idempotent
    (fetch : String → FetchResult) (url vid : String) (cs : List Caption) (w : CacheWorld)
    (hparse : parse_youtube_url url = some vid) (hvid : vid ≠ "")
    (hmiss : w.entries.lookup vid = none)
    (hfetch : fetch vid = .captions cs) (hcs : cs ≠ []) :
    (download_closed_captions fetch url (download_closed_captions fetch url w).2).2.fetchCalls
      = w.fetchCalls + 1
    ∧ (download_closed_captions fetch url (download_closed_captions fetch url w).2).1
      = (download_closed_captions fetch url w).1
    ∧ (download_closed_captions fetch url w).1 = .ok [⟨"text", joinCaptions cs⟩]
    ∧ (download_closed_captions fetch url w).2.entries.lookup vid = some cs := by
  cases cs with
  | nil => exact absurd rfl hcs
  | cons c cs' =>
    simp [download_closed_captions, hparse, hvid, hmiss, hfetch, List.lookup]

/-- Witness for C1 at a concrete URL, fetch function and initial state. -/
theorem cache_idempotent_witness :
    (download_closed_captions fixedFetch "https://youtu.be/abc"
        (download_closed_captions fixedFetch "https://youtu.be/abc" emptyWorld).2).2.fetchCalls
      = emptyWorld.fetchCalls + 1
    ∧ (download_closed_captions fixedFetch "https://youtu.be/abc"
        (download_closed_captions fixedFetch "https://youtu.be/abc" emptyWorld).2).1
      = (download_closed_captions fixedFetch "https://youtu.be/abc" emptyWorld).1
    ∧ (download_closed_captions fixedFetch "https://youtu.be/abc" emptyWorld).1
      = .ok [⟨"text", joinCaptions [⟨"hello"⟩, ⟨"world"⟩]⟩]
    ∧ (download_closed_captions fixedFetch "https://youtu.be/abc" emptyWorld).2.entries.lookup "abc"
      = some [⟨"hello"⟩, ⟨"world"⟩] :=
  cache_idempotent fixedFetch "https://youtu.be/abc" "abc" [⟨"hello"⟩, ⟨"world"⟩] emptyWorld
    (by decide) (by decide) rfl rfl (by decide)

/-- C10: on a cache miss where the external fetch returns an empty list or a
non-list, the handler fails with the no-transcript error, the cache entries
are unchanged (no file is written for the video id), the fetch was called
once, and a subsequent identical invocation attempts the fetch again. -/
theorem no_transcript_no_cache_write
    (fetch : String → FetchResult) (url vid : String) (w : CacheWorld)
    (hparse : parse_youtube_url url = some vid) (hvid : vid ≠ "")
    (hmiss : w.entries.lookup vid = none)
    (hfetch : fetch vid = .captions [] ∨ fetch vid = .notAList) :
    (download_closed_captions fetch url w).1 = .error .noTranscript
    ∧ (download_closed_captions fetch url w).2.entries = w.entries
    ∧ (download_closed_captions fetch url w).2.fetchCalls = w.fetchCalls + 1
    ∧ (download_closed_captions fetch url
        (download_closed_captions fetch url w).2).2.fetchCalls = w.fetchCalls + 2 := by
  rcases hfetch with hf | hf <;>
    simp [download_closed_captions, hparse, hvid, hmiss, hf]

/-- Witness for C10 with a fetch that returns an empty transcript. -/
theorem no_transcript_no_cache_write_witness :
    (download_closed_captions (fun _ => FetchResult.captions []) "https://youtu.be/xyz" emptyWorld).1
      = .error .noTranscript
    ∧ (download_closed_captions (fun _ => FetchResult.captions []) "https://youtu.be/xyz" emptyWorld).2.entries
      = emptyWorld.entries
    ∧ (download_closed_captions (fun _ => FetchResult.captions []) "https://youtu.be/xyz" emptyWorld).2.fetchCalls
      = emptyWorld.fetchCalls + 1
    ∧ (download_closed_captions (fun _ => FetchResult.captions []) "https://youtu.be/xyz"
        (download_closed_captions (fun _ => FetchResult.captions []) "https://youtu.be/xyz" emptyWorld).2).2.fetchCalls
      = emptyWorld.fetchCalls + 2 :=
  no_transcript_no_cache_write (fun _ => FetchResult.captions []) "https://youtu.be/xyz" "xyz"
    emptyWorld (by decide) (by decide) rfl (Or.inl rfl)

/-- C7 counterexample: on an unrecognized URL the handler does fail without
touching cache entries or the network, but it has already created the cache
directory — starting from a state where the directory does not exist, the
final state differs from the initial one. -/
theorem unrecognized_url_creates_cache_dir :
    (download_closed_captions (fun _ => FetchResult.notAList) "https://example.com/video" emptyWorld).1
      = .error (.unrecognizedURL "https://example.com/video")
    ∧ (download_closed_captions (fun _ => FetchResult.notAList) "https://example.com/video" emptyWorld).2
      ≠ emptyWorld
    ∧ emptyWorld.dirExists = false
    ∧ (download_closed_captions (fun _ => FetchResult.notAList) "https://example.com/video" emptyWorld).2.dirExists
      = true :=
  ⟨rfl, by decide, rfl, rfl⟩

/-- C7 (amended): for every URL from which no (nonempty) video id can be
extracted, the handler fails with the unrecognized-URL error, leaves the cache
entries untouched and calls the external fetch zero times — but it does create
the cache directory (the `mkdir` runs before URL validation), so the directory
exists afterwards even if it did not before. -/
theorem unrecognized_url_no_cache_no_fetch
    (fetch : String → FetchResult) (url : String) (w : CacheWorld)
    (h : parse_youtube_url url = none ∨ parse_youtube_url url = some "") :
    (download_closed_captions fetch url w).1 = .error (.unrecognizedURL url)
    ∧ (download_closed_captions fetch url w).2.entries = w.entries
    ∧ (download_closed_captions fetch url w).2.fetchCalls = w.fetchCalls
    ∧ (download_closed_captions fetch url w).2.dirExists = true := by
  rcases h with h | h <;> simp [download_closed_captions, h]

/-- Witness for C7 (amended) at a concrete non-YouTube URL. -/
theorem unrecognized_url_no_cache_no_fetch_witness :
    (download_closed_captions fixedFetch "https://example.com/video" emptyWorld).1
      = .error (.unrecognizedURL "https://example.com/video")
    ∧ (download_closed_captions fixedFetch "https://example.com/video" emptyWorld).2.entries
      = emptyWorld.entries
    ∧ (download_closed_captions fixedFetch "https://example.com/video" emptyWorld).2.fetchCalls
      = emptyWorld.fetchCalls
    ∧ (download_closed_captions fixedFetch "https://example.com/video" emptyWorld).2.dirExists = true :=
  unrecognized_url_no_cache_no_fetch fixedFetch "https://example.com/video" emptyWorld
    (Or.inl (by decide))

/-- C3 (amended): the first consumption of `enumerate_available_tools` yields
exactly one pair per registered tool-argument type — here the single pair for
`DownloadClosedCaptions` — and in every yielded pair the name equals the
type's declared identifier; but because `functools.cache` memoizes the
generator object itself, a second call after the first consumption returns
the same exhausted generator and yields nothing. -/
theorem enumerate_tools_memoized_generator :
    (consumeEnumerateAvailableTools ⟨false⟩).1
      = [("DownloadClosedCaptions",
          ⟨"DownloadClosedCaptions", "Download closed captions from YouTube video.",
            [("video_url", "string", true)]⟩)]
    ∧ ((consumeEnumerateAvailableTools ⟨false⟩).1.all fun p => p.1 == p.2.name) = true
    ∧ (consumeEnumerateAvailableTools (consumeEnumerateAvailableTools ⟨false⟩).2).1 = [] := by
  decide

/-- C3 counterexample: after the first consumption the memoized generator is
exhausted, so a second enumeration yields the empty set of pairs rather than
the same set again. -/
theorem enumerate_tools_second_run_empty :
    (consumeEnumerateAvailableTools (consumeEnumerateAvailableTools ⟨false⟩).2).1 = []
    ∧ (consumeEnumerateAvailableTools (consumeEnumerateAvailableTools ⟨false⟩).2).1
      ≠ (consumeEnumerateAvailableTools ⟨false⟩).1 := by
  decide

/-- C4: inside the try block of `call_tool`, an exception from argument
binding or from the invoked handler is caught and re-raised as a
`RuntimeError` whose message contains the original message; no error result
of the runner ever leaves `call_tool` unwrapped. -/
theorem call_tool_wraps_handler_errors
    (entries : List (String × PyValue))
    (runner : DownloadClosedCaptions → Except PyExc (List TextContent)) (e : PyExc) :
    (bindDownloadClosedCaptions entries = .error e →
      call_tool "DownloadClosedCaptions" (.dict entries) runner
        = .error (.runtimeError ("Caught Exception. Error: " ++ e.msg)))
    ∧ (∀ a, bindDownloadClosedCaptions entries = .ok a → runner a = .error e →
      call_tool "DownloadClosedCaptions" (.dict entries) runner
        = .error (.runtimeError ("Caught Exception. Error: " ++ e.msg)))
    ∧ pyIn (PyExc.msg e) ("Caught Exception. Error: " ++ e.msg) = true := by
  have hm : mapping.lookup "DownloadClosedCaptions"
      = some ⟨"DownloadClosedCaptions", "Download closed captions from YouTube video.",
          [("video_url", "string", true)]⟩ := by decide
  refine ⟨fun h => ?_, fun a ha hr => ?_, ?_⟩
  · simp [call_tool, hm, tool_args, h]
  · simp [call_tool, hm, tool_args, ha, hr]
  · exact pyIn_append_left "Caught Exception. Error: " e.msg

/-- Witness for C4: a binding failure (mis-typed field) and a handler failure,
both wrapped with the original message inside. -/
theorem call_tool_wraps_handler_errors_witness :
    call_tool "DownloadClosedCaptions" (.dict [("video_url", .int 5)]) (fun _ => .ok [])
      = .error (.runtimeError ("Caught Exception. Error: "
          ++ PyExc.msg (.validationError "Input should be a valid string: video_url")))
    ∧ call_tool "DownloadClosedCaptions" (.dict [("video_url", .str "u")])
        (fun _ => .error (.valueError "boom"))
      = .error (.runtimeError ("Caught Exception. Error: " ++ PyExc.msg (.valueError "boom"))) :=
  ⟨(call_tool_wraps_handler_errors [("video_url", .int 5)] (fun _ => .ok [])
      (.validationError "Input should be a valid string: video_url")).1 rfl,
   (call_tool_wraps_handler_errors [("video_url", .str "u")]
      (fun _ => .error (.valueError "boom")) (.valueError "boom")).2.1 ⟨"u"⟩ rfl rfl⟩

/-- C5: for a tool name absent from the registry mapping and any dictionary of
raw arguments, `call_tool` fails with the unknown-tool `ValueError`, and the
result does not depend on the handler — no binding and no handler invocation
happens. -/
theorem call_tool_unknown_tool
    (name : String) (entries : List (String × PyValue))
    (runner runner2 : DownloadClosedCaptions → Except PyExc (List TextContent))
    (h : mapping.lookup name = none) :
    call_tool name (.dict entries) runner = .error (.valueError ("Unknown tool: " ++ name))
    ∧ call_tool name (.dict entries) runner = call_tool name (.dict entries) runner2 := by
  constructor <;> simp [call_tool, h]

/-- Witness for C5 at a concrete unregistered name. -/
theorem call_tool_unknown_tool_witness :
    call_tool "NoSuchTool" (.dict [("video_url", .str "u")]) (fun _ => .ok [])
      = .error (.valueError ("Unknown tool: " ++ "NoSuchTool"))
    ∧ call_tool "NoSuchTool" (.dict [("video_url", .str "u")]) (fun _ => .ok [])
      = call_tool "NoSuchTool" (.dict [("video_url", .str "u")]) (fun _ => .error (.valueError "x")) :=
  call_tool_unknown_tool "NoSuchTool" [("video_url", .str "u")] (fun _ => .ok [])
    (fun _ => .error (.valueError "x")) (by decide)

/-- C6 (amended): binding fails with a validation error when the required
field `video_url` is missing or not a string, non-dictionary raw arguments
are rejected with a `TypeError` before binding, and binding succeeds with the
field populated whenever `video_url` is present as a string — regardless of
any other fields, since pydantic's default configuration ignores unknown
extras. -/
theorem bind_arguments_validation
    (entries : List (String × PyValue)) :
    (entries.lookup "video_url" = none →
      bindDownloadClosedCaptions entries = .error (.validationError "Field required: video_url"))
    ∧ (∀ s, entries.lookup "video_url" = some (.str s) →
      bindDownloadClosedCaptions entries = .ok ⟨s⟩)
    ∧ (∀ v, entries.lookup "video_url" = some v → (∀ s, v ≠ PyValue.str s) →
      bindDownloadClosedCaptions entries
        = .error (.validationError "Input should be a valid string: video_url"))
    ∧ (∀ runner, call_tool "DownloadClosedCaptions" .notADict runner
        = .error (.typeError "arguments must be dictionary")) := by
  refine ⟨fun h => ?_, fun s h => ?_, fun v hv hns => ?_, fun runner => rfl⟩
  · simp [bindDownloadClosedCaptions, h]
  · simp [bindDownloadClosedCaptions, h]
  · cases v with
    | str s => exact absurd rfl (hns s)
    | _ => simp [bindDownloadClosedCaptions, hv]

/-- C6 counterexample: a raw mapping containing the unknown field
`unknown_field` does not fail — pydantic's default `extra` behaviour ignores
it and binding succeeds. -/
theorem bind_unknown_field_ignored :
    bindDownloadClosedCaptions [("video_url", .str "x"), ("unknown_field", .str "y")]
      = .ok ⟨"x"⟩ := rfl

/-- Witness for C6 (amended) at concrete argument mappings. -/
theorem bind_arguments_validation_witness :
    bindDownloadClosedCaptions [("other", .str "x")]
      = .error (.validationError "Field required: video_url")
    ∧ bindDownloadClosedCaptions [("video_url", .str "https://youtu.be/abc")]
      = .ok ⟨"https://youtu.be/abc"⟩
    ∧ bindDownloadClosedCaptions [("video_url", .int 7)]
      = .error (.validationError "Input should be a valid string: video_url")
    ∧ call_tool "DownloadClosedCaptions" .notADict (fun _ => .ok [])
      = .error (.typeError "arguments must be dictionary") :=
  ⟨(bind_arguments_validation [("other", .str "x")]).1 rfl,
   (bind_arguments_validation [("video_url", .str "https://youtu.be/abc")]).2.1
     "https://youtu.be/abc" rfl,
   (bind_arguments_validation [("video_url", .int 7)]).2.2.1 (.int 7) rfl
     (fun _ h => PyValue.noConfusion h),
   (bind_arguments_validation []).2.2.2 (fun _ => .ok [])⟩

/-- C8 (amended): for a nonempty URL argument the known prompt renders the
single user message, whose text contains the URL as a literal substring; a
mapping without `yt_url` — and likewise one whose `yt_url` is the empty
string, since `if not url` treats both alike — fails with the
missing-argument `ValueError`; any other prompt name fails with the
unknown-prompt `ValueError`. -/
theorem get_prompt_spec
    (X : String) (m : List (String × String)) (hX : X ≠ "") (hm : m.lookup "yt_url" = some X) :
    get_prompt "YoutubeVideoSummary" (some m) = .ok ⟨[⟨"user", ⟨"text", summaryText X⟩⟩]⟩
    ∧ pyIn X (summaryText X) = true
    ∧ (∀ m2 : List (String × String), m2.lookup "yt_url" = none →
        get_prompt "YoutubeVideoSummary" (some m2) = .error (.valueError "yt_url is required"))
    ∧ get_prompt "YoutubeVideoSummary" none = .error (.valueError "yt_url is required")
    ∧ (∀ name args, name ≠ "YoutubeVideoSummary" →
        get_prompt name args = .error (.valueError ("Unknown prompt: " ++ name))) := by
  refine ⟨?_, pyIn_append_middle "Create a summary of the video " X
      " using closed captions. Define key takeaways, interesting facts, and the main topic of the video.",
    fun m2 h2 => ?_, rfl, fun name args h => ?_⟩
  · simp [get_prompt, hm, hX]
  · simp [get_prompt, h2]
  · simp [get_prompt, h]

/-- C8 counterexample: a mapping that does contain `yt_url`, with the empty
string as value, does not produce a message — `if not url` also treats the
empty string as absent. -/
theorem get_prompt_empty_url_rejected :
    get_prompt "YoutubeVideoSummary" (some [("yt_url", "")])
      = .error (.valueError "yt_url is required") := rfl

/-- Witness for C8 (amended) at a concrete URL argument. -/
theorem get_prompt_spec_witness :
    get_prompt "YoutubeVideoSummary" (some [("yt_url", "VID123")])
      = .ok ⟨[⟨"user", ⟨"text", summaryText "VID123"⟩⟩]⟩
    ∧ pyIn "VID123" (summaryText "VID123") = true
    ∧ get_prompt "OtherPrompt" none = .error (.valueError ("Unknown prompt: " ++ "OtherPrompt")) :=
  ⟨(get_prompt_spec "VID123" [("yt_url", "VID123")] (by decide) rfl).1,
   (get_prompt_spec "VID123" [("yt_url", "VID123")] (by decide) rfl).2.1,
   (get_prompt_spec "X" [("yt_url", "X")] (by decide) rfl).2.2.2.2 "OtherPrompt" none (by decide)⟩
